import Mathlib

/-!
Shallow embedding of the position-tracking and profit-accounting subsystem
of the AI-BTC-Trader backend (src/backend/utils.py and src/backend/main.py).

Decimal values are modelled by the rationals.  Python dictionary records are
modelled by structures whose fields are options: a missing key is none.
Operations that can raise a Python exception return a value in the Except
monad; a pure function is one that cannot raise on the modelled inputs.
-/

namespace BTCTrader

/-- Python exceptions that the embedded code can raise. -/
inductive PyErr where
  | keyError : PyErr
  | zeroDivision : PyErr
  | invalidInput : PyErr
  deriving DecidableEq

/-- A trade record (a Python dict in the source): every field is optional. -/
structure Trade where
  side : Option String := none
  price : Option ℚ := none
  size : Option ℚ := none
  position_id : Option String := none
  profit_amount : Option ℚ := none
  entry_price : Option ℚ := none
  exit_price : Option ℚ := none
  deriving DecidableEq

/-- An active position record (a Python dict in the source). -/
structure ActivePosition where
  entry_price : Option ℚ := none
  size : Option ℚ := none
  stop_loss : Option ℚ := none
  take_profit : Option ℚ := none
  deriving DecidableEq

/-- Python division: raises ZeroDivisionError on a zero divisor. -/
def qdivE (a b : ℚ) : Except PyErr ℚ :=
  if b = 0 then Except.error PyErr.zeroDivision else Except.ok (a / b)

/-- Python dict subscript access d[k]: raises KeyError when the key is absent. -/
def getItem {α : Type} (o : Option α) : Except PyErr α :=
  match o with
  | some a => Except.ok a
  | none => Except.error PyErr.keyError

/-- utils.calculate_profit_loss: directional price difference times size. -/
def calculate_profit_loss (entry_price current_price size : ℚ) (is_long : Bool) : ℚ :=
  if is_long then (current_price - entry_price) * size
  else (entry_price - current_price) * size

/-- utils.calculate_profit_loss_percentage: relative change times 100,
dividing by the entry price exactly as the source does. -/
def calculate_profit_loss_percentage (entry_price current_price : ℚ) (is_long : Bool) :
    Except PyErr ℚ :=
  if is_long then (qdivE (current_price - entry_price) entry_price).map (· * 100)
  else (qdivE (entry_price - current_price) entry_price).map (· * 100)

/-- utils.is_successful_trade: false when entry or exit price is missing,
otherwise the sign test of the profit-loss percentage. -/
def is_successful_trade (trade_data : Trade) : Except PyErr Bool :=
  match trade_data.entry_price, trade_data.exit_price with
  | some e, some x =>
      (calculate_profit_loss_percentage e x (trade_data.side.getD "BUY" = "BUY")).map
        (fun p => decide (0 < p))
  | _, _ => Except.ok false

/-- Per-trade profit-loss as used by get_performance_summary: subscript access
to entry price, exit price and size, so a missing key raises KeyError. -/
def tradePL (t : Trade) : Except PyErr ℚ := do
  let e ← getItem t.entry_price
  let x ← getItem t.exit_price
  let sz ← getItem t.size
  pure (calculate_profit_loss e x sz (t.side.getD "BUY" = "BUY"))

/-- Monadic filter over a list, evaluating the predicate left to right and
propagating the first exception, as a Python list comprehension does. -/
def filterE (p : Trade → Except PyErr Bool) : List Trade → Except PyErr (List Trade)
  | [] => Except.ok []
  | t :: ts => do
      let b ← p t
      let rest ← filterE p ts
      pure (if b then t :: rest else rest)

/-- Monadic sum of per-trade profit-loss values, left to right. -/
def sumPL : List Trade → Except PyErr ℚ
  | [] => Except.ok 0
  | t :: ts => do
      let a ← tradePL t
      let b ← sumPL ts
      pure (a + b)

/-- Monadic list of per-trade profit-loss values, left to right. -/
def plList : List Trade → Except PyErr (List ℚ)
  | [] => Except.ok []
  | t :: ts => do
      let a ← tradePL t
      let rest ← plList ts
      pure (a :: rest)

/-- Python max over a possibly empty list with a default. -/
def pymax (l : List ℚ) (d : ℚ) : ℚ :=
  match l with
  | [] => d
  | a :: rest => rest.foldl max a

/-- Python min over a possibly empty list with a default. -/
def pymin (l : List ℚ) (d : ℚ) : ℚ :=
  match l with
  | [] => d
  | a :: rest => rest.foldl min a

/-- The aggregate statistics returned by get_performance_summary. -/
structure PerformanceSummary where
  total_trades : ℕ
  win_rate : ℚ
  profit_loss : ℚ
  avg_profit_per_trade : ℚ
  avg_loss_per_trade : ℚ
  max_profit : ℚ
  max_loss : ℚ
  deriving DecidableEq

/-- utils.get_performance_summary, with Python exception semantics: list
comprehensions and sums evaluate left to right and propagate exceptions. -/
def get_performance_summary (trades : List Trade) : Except PyErr PerformanceSummary :=
  if trades.isEmpty then Except.ok ⟨0, 0, 0, 0, 0, 0, 0⟩
  else do
    let winning_trades ← filterE is_successful_trade trades
    let losing_trades ← filterE
      (fun t => (is_successful_trade t).map (fun b => !b && t.exit_price.isSome)) trades
    let total_pl ← sumPL (trades.filter (fun t => t.exit_price.isSome))
    let avg_profit ← if winning_trades.isEmpty then pure 0
      else (sumPL winning_trades).map (· / (winning_trades.length : ℚ))
    let avg_loss ← if losing_trades.isEmpty then pure 0
      else (sumPL losing_trades).map (· / (losing_trades.length : ℚ))
    let max_profit ← (plList winning_trades).map (pymax · 0)
    let max_loss ← (plList losing_trades).map (pymin · 0)
    pure {
      total_trades := trades.length
      win_rate := (winning_trades.length : ℚ) / (trades.length : ℚ) * 100
      profit_loss := total_pl
      avg_profit_per_trade := avg_profit
      avg_loss_per_trade := avg_loss
      max_profit := max_profit
      max_loss := max_loss }

/-- The record returned by calculate_total_profit_summary. -/
structure ProfitSummary where
  realized_profit : ℚ
  unrealized_profit : ℚ
  total_profit : ℚ
  realized_profit_percentage : ℚ
  unrealized_profit_percentage : ℚ
  total_profit_percentage : ℚ
  total_buy_volume : ℚ
  total_sell_volume : ℚ
  open_positions_count : ℕ
  closed_positions_count : ℕ
  deriving DecidableEq

/-- Accumulator of the first pass of calculate_total_profit_summary over the
trade history; closed_positions is a Python set of position ids, where a
SELL trade with no position id contributes the value none. -/
structure FirstPass where
  total_investment : ℚ := 0
  total_buy_volume : ℚ := 0
  total_sell_volume : ℚ := 0
  realized_profit : ℚ := 0
  closed_positions : Finset (Option String) := ∅
  deriving DecidableEq

/-- One iteration of the first pass: dispatch on trade.get("side"). -/
def firstPassStep (acc : FirstPass) (trade : Trade) : FirstPass :=
  if trade.side = some "BUY" then
    let price := trade.price.getD 0
    let size := trade.size.getD 0
    { acc with
      total_investment := acc.total_investment + price * size
      total_buy_volume := acc.total_buy_volume + size }
  else if trade.side = some "SELL" then
    let acc2 := { acc with
      total_sell_volume := acc.total_sell_volume + trade.size.getD 0
      closed_positions := insert trade.position_id acc.closed_positions }
    match trade.profit_amount with
    | some p => { acc2 with realized_profit := acc2.realized_profit + p }
    | none => acc2
  else acc

/-- The full first pass over the trade history. -/
def firstPass (trade_history : List Trade) : FirstPass :=
  trade_history.foldl firstPassStep {}

/-- The unrealized-profit loop of calculate_total_profit_summary: positions
with non-positive defaulted entry price or size are skipped. -/
def unrealizedTotal (active_positions : List ActivePosition) (current_price : ℚ) : ℚ :=
  active_positions.foldl
    (fun acc p =>
      let e := p.entry_price.getD 0
      let sz := p.size.getD 0
      if 0 < e ∧ 0 < sz then acc + calculate_profit_loss e current_price sz true else acc)
    0

/-- The open-positions value used as denominator of the unrealized
percentage: sum of entry_price * size with missing fields defaulted to 0. -/
def open_positions_value (active_positions : List ActivePosition) : ℚ :=
  (active_positions.map (fun p => p.entry_price.getD 0 * p.size.getD 0)).sum

/-- utils.calculate_total_profit_summary, with Python division modelled as a
possibly raising operation (the source guards each division by a positivity
test on the denominator). -/
def calculate_total_profit_summary (trade_history : List Trade)
    (active_positions : List ActivePosition) (current_price : ℚ) :
    Except PyErr ProfitSummary := do
  let fp := firstPass trade_history
  let unrealized := unrealizedTotal active_positions current_price
  let total := fp.realized_profit + unrealized
  let realized_pct ← if 0 < fp.total_investment then
      (qdivE fp.realized_profit fp.total_investment).map (· * 100)
    else pure 0
  let total_pct ← if 0 < fp.total_investment then
      (qdivE total fp.total_investment).map (· * 100)
    else pure 0
  let opv := open_positions_value active_positions
  let unrealized_pct ← if 0 < opv then (qdivE unrealized opv).map (· * 100) else pure 0
  pure {
    realized_profit := fp.realized_profit
    unrealized_profit := unrealized
    total_profit := total
    realized_profit_percentage := realized_pct
    unrealized_profit_percentage := unrealized_pct
    total_profit_percentage := total_pct
    total_buy_volume := fp.total_buy_volume
    total_sell_volume := fp.total_sell_volume
    open_positions_count := active_positions.length
    closed_positions_count := fp.closed_positions.card }

/-- The value calculate_total_profit_summary always computes, written without
the exception monad: the positivity guards make every division safe. -/
def profitSummaryValue (trade_history : List Trade)
    (active_positions : List ActivePosition) (current_price : ℚ) : ProfitSummary :=
  let fp := firstPass trade_history
  let unrealized := unrealizedTotal active_positions current_price
  let total := fp.realized_profit + unrealized
  let opv := open_positions_value active_positions
  { realized_profit := fp.realized_profit
    unrealized_profit := unrealized
    total_profit := total
    realized_profit_percentage :=
      if 0 < fp.total_investment then fp.realized_profit / fp.total_investment * 100 else 0
    unrealized_profit_percentage := if 0 < opv then unrealized / opv * 100 else 0
    total_profit_percentage :=
      if 0 < fp.total_investment then total / fp.total_investment * 100 else 0
    total_buy_volume := fp.total_buy_volume
    total_sell_volume := fp.total_sell_volume
    open_positions_count := active_positions.length
    closed_positions_count := fp.closed_positions.card }

theorem calculate_total_profit_summary_ok (trade_history : List Trade)
    (active_positions : List ActivePosition) (current_price : ℚ) :
    calculate_total_profit_summary trade_history active_positions current_price =
      Except.ok (profitSummaryValue trade_history active_positions current_price) := by
  unfold calculate_total_profit_summary profitSummaryValue
  by_cases hti : 0 < (firstPass trade_history).total_investment <;>
    by_cases hopv : 0 < open_positions_value active_positions <;>
      simp [hti, hopv, qdivE, ne_of_gt, Except.map, bind, Except.bind]
  all_goals rfl

/-! ## Position update endpoint (src/backend/main.py, update_position) -/

/-- An HTTPException as raised by the endpoint handlers. -/
structure HTTPError where
  status : ℕ
  detail : String
  deriving DecidableEq

/-- The request body of the position update endpoint (pydantic model
PositionUpdate); every updatable field is optional. -/
structure PositionUpdate where
  stop_loss : Option ℚ := none
  take_profit : Option ℚ := none
  size : Option ℚ := none
  deriving DecidableEq

/-- Python truthiness of an optional float: None and 0.0 are falsy. -/
def truthy (o : Option ℚ) : Bool :=
  match o with
  | none => false
  | some v => decide (v ≠ 0)

/-- The persisted position set: a mapping from position id to position. -/
abbrev PositionStore := List (String × ActivePosition)

/-- Dictionary lookup in the position set. -/
def storeLookup (s : PositionStore) (id : String) : Option ActivePosition :=
  match s with
  | [] => none
  | (k, p) :: rest => if k = id then some p else storeLookup rest id

/-- Replace the entry of one id in the position set, leaving others alone. -/
def storeSet (s : PositionStore) (id : String) (p : ActivePosition) : PositionStore :=
  s.map (fun kv => if kv.1 = id then (kv.1, p) else kv)

/-- Modelled from the spec: trader.load_active_positions lives in
btc_investor_ai_v4.py, which is not part of the visible source; spec section
4.4 says load_all returns the current snapshot of the persisted set. -/
def load_active_positions (s : PositionStore) : PositionStore := s

/-- Modelled from the spec: trader.update_position_stop_loss is in
btc_investor_ai_v4.py; per spec section 4.4 it mutates the one field of the
stored position and persists the whole set. -/
def update_position_stop_loss (s : PositionStore) (id : String) (v : ℚ) : PositionStore :=
  s.map (fun kv => if kv.1 = id then (kv.1, { kv.2 with stop_loss := some v }) else kv)

/-- Modelled from the spec: trader.update_position_size is in
btc_investor_ai_v4.py; per spec section 4.4 it mutates the one field of the
stored position and persists the whole set. -/
def update_position_size (s : PositionStore) (id : String) (v : ℚ) : PositionStore :=
  s.map (fun kv => if kv.1 = id then (kv.1, { kv.2 with size := some v }) else kv)

/-- Modelled from the spec: trader.save_active_positions is in
btc_investor_ai_v4.py; it persists the given set wholesale, replacing the
stored one. -/
def save_active_positions (positions : PositionStore) (_old : PositionStore) : PositionStore :=
  positions

/-- The body of the try block of update_position: looks the id up in the
loaded snapshot, raises a 404 HTTPException when absent, otherwise applies
each update guarded by the truthiness of the supplied value.  Returns the
response or the raised exception, together with the resulting store. -/
def update_position_try (store : PositionStore) (position_id : String)
    (update : PositionUpdate) : Except HTTPError String × PositionStore :=
  let positions := load_active_positions store
  match storeLookup positions position_id with
  | none =>
      (Except.error { status := 404, detail := "Position " ++ position_id ++ " not found" }, store)
  | some pos =>
      let store1 := if truthy update.stop_loss then
          update_position_stop_loss store position_id (update.stop_loss.getD 0)
        else store
      let store2 := if truthy update.size then
          update_position_size store1 position_id (update.size.getD 0)
        else store1
      let store3 := if truthy update.take_profit then
          save_active_positions
            (storeSet positions position_id { pos with take_profit := update.take_profit })
            store2
        else store2
      (Except.ok "Position updated successfully", store3)

/-- main.update_position: the trader-initialization guard sits outside the
try block; every exception raised inside the try block, the explicit 404
HTTPException included, is caught by the bare except clause and re-raised
as a 500 HTTPException wrapping the message of the original exception. -/
def update_position (trader_ok : Bool) (store : PositionStore) (position_id : String)
    (update : PositionUpdate) : Except HTTPError String × PositionStore :=
  if trader_ok = false then
    (Except.error { status := 400, detail := "Trader is not initialized. Please configure API keys first." }, store)
  else
    match update_position_try store position_id update with
    | (Except.error e, st) =>
        (Except.error { status := 500, detail := "Error updating position: " ++ toString e.status ++ ": " ++ e.detail }, st)
    | ok => ok

/-! ## AI analysis endpoint (src/backend/main.py, get_ai_analysis) -/

/-- The market data frame, abstracted to the only attribute the handler
inspects: emptiness.  The mock-data price scaling does not change it. -/
structure MarketData where
  empty : Bool
  deriving DecidableEq

/-- Outcome of an external call executed under a timeout wrapper. -/
inductive CallOutcome (α : Type) where
  | ok (val : α)
  | timeout
  | exn
  deriving DecidableEq

/-- Oracle for the external collaborators invoked inside the try block of
get_ai_analysis: temp-trader construction for non-BTC symbols, the
market-data fetch under a 30 second timeout, the raw mock fetch fallback,
the indicator computation, and the AI analysis under a 60 second timeout.
none means the raw call raises. -/
structure AnalysisOracle where
  temp_trader_raises : Bool
  fetch : CallOutcome MarketData
  mock_fetch : Option MarketData
  indicators : Option MarketData
  analyze : CallOutcome ℕ
  deriving DecidableEq

/-- A cached analysis result: the opaque payload and its timestamp. -/
structure CacheEntry where
  data : ℕ
  timestamp : Option ℚ
  deriving DecidableEq

/-- The process-wide state of the analysis coalescer: the per-symbol result
cache and the per-symbol in-progress flags. -/
structure CoalescerState where
  analysis_cache : List (String × CacheEntry)
  analysis_in_progress : List (String × Bool)
  deriving DecidableEq

/-- Dictionary lookup in the cache. -/
def cacheLookup (c : List (String × CacheEntry)) (symbol : String) : Option CacheEntry :=
  match c with
  | [] => none
  | (k, e) :: rest => if k = symbol then some e else cacheLookup rest symbol

/-- Store a cache entry under a symbol, overwriting any previous one. -/
def cacheSet (c : List (String × CacheEntry)) (symbol : String) (e : CacheEntry) :
    List (String × CacheEntry) :=
  match c with
  | [] => [(symbol, e)]
  | (k, old) :: rest =>
      if k = symbol then (k, e) :: rest else (k, old) :: cacheSet rest symbol e

/-- The Python test: symbol in analysis_in_progress and analysis_in_progress[symbol]. -/
def inProgressFlag (m : List (String × Bool)) (symbol : String) : Bool :=
  match m with
  | [] => false
  | (k, b) :: rest => if k = symbol then b else inProgressFlag rest symbol

/-- Assignment analysis_in_progress[symbol] = b. -/
def setInProgress (m : List (String × Bool)) (symbol : String) (b : Bool) :
    List (String × Bool) :=
  match m with
  | [] => [(symbol, b)]
  | (k, old) :: rest =>
      if k = symbol then (k, b) :: rest else (k, old) :: setInProgress rest symbol b

/-- How a call of get_ai_analysis ends: an HTTPException, a raw propagated
exception, or a returned analysis entry. -/
abbrev AnalysisResult := Except (Option HTTPError) CacheEntry

/-- The symbols accepted by the endpoint. -/
def supported_symbols : List String := ["BTC", "ETH", "SOL", "XRP"]

/-- The symbols accepted with a mock-data fallback. -/
def additional_symbols : List String := ["USDC", "BTC-USDC", "ADA", "DOGE", "SHIB"]

/-- The continuation of the try block of get_ai_analysis once market data is
at hand: emptiness check, indicator computation, AI analysis under timeout,
then caching of the timestamped result. -/
def analysis_after_fetch (o : AnalysisOracle) (symbol : String) (now : ℚ)
    (cache : List (String × CacheEntry)) (md : MarketData) :
    AnalysisResult × List (String × CacheEntry) :=
  if md.empty then
    (Except.error (some { status := 500, detail := "Failed to fetch market data for analysis" }), cache)
  else
    match o.indicators with
    | none => (Except.error none, cache)
    | some _ =>
        match o.analyze with
        | CallOutcome.timeout =>
            (Except.error (some { status := 504, detail := "AI analysis timed out" }), cache)
        | CallOutcome.exn =>
            (Except.error (some { status := 500, detail := "Error running AI analysis" }), cache)
        | CallOutcome.ok r =>
            let entry : CacheEntry := { data := r, timestamp := some now }
            (Except.ok entry, cacheSet cache symbol entry)

/-- The try block of get_ai_analysis: temp-trader construction for non-BTC
symbols, then the market-data fetch with its timeout and mock-data fallback
for the additional symbols, then analysis_after_fetch.  It never touches the
in-progress flags. -/
def analysis_try (o : AnalysisOracle) (symbol : String) (now : ℚ)
    (cache : List (String × CacheEntry)) :
    AnalysisResult × List (String × CacheEntry) :=
  if symbol ≠ "BTC" ∧ o.temp_trader_raises then (Except.error none, cache)
  else
    match o.fetch with
    | CallOutcome.timeout =>
        (Except.error (some { status := 504, detail := "Data fetching timed out" }), cache)
    | CallOutcome.exn =>
        if symbol ∈ additional_symbols then
          match o.mock_fetch with
          | none => (Except.error none, cache)
          | some md => analysis_after_fetch o symbol now cache md
        else
          (Except.error (some { status := 500, detail := "Error fetching market data for " ++ symbol }), cache)
    | CallOutcome.ok md => analysis_after_fetch o symbol now cache md

/-- The section of get_ai_analysis from the flag acquisition to the finally
clause: the flag is set, the try block runs, and the finally clause clears
the flag again on every exit path. -/
def analysis_locked (o : AnalysisOracle) (symbol : String) (now : ℚ)
    (st : CoalescerState) : AnalysisResult × CoalescerState :=
  let st1 : CoalescerState :=
    { st with analysis_in_progress := setInProgress st.analysis_in_progress symbol true }
  let r := analysis_try o symbol now st1.analysis_cache
  (r.1,
   { analysis_cache := r.2,
     analysis_in_progress := setInProgress st1.analysis_in_progress symbol false })

/-- main.get_ai_analysis: guard chain (trader initialized, symbol supported,
not already in progress, fresh cache hit), then the locked section. -/
def get_ai_analysis (o : AnalysisOracle) (trader_ok : Bool) (now : ℚ) (symbol : String)
    (st : CoalescerState) : AnalysisResult × CoalescerState :=
  if trader_ok = false then
    (Except.error (some { status := 400, detail := "Trader is not initialized. Please configure API keys first." }), st)
  else if symbol ∉ supported_symbols ++ additional_symbols then
    (Except.error (some { status := 400, detail := "Unsupported symbol: " ++ symbol }), st)
  else if inProgressFlag st.analysis_in_progress symbol then
    (Except.error (some { status := 429, detail := "AI analysis for " ++ symbol ++ " is already in progress" }), st)
  else
    match cacheLookup st.analysis_cache symbol with
    | some entry =>
        match entry.timestamp with
        | some ts =>
            if now - ts < 15 * 60 then (Except.ok entry, st)
            else analysis_locked o symbol now st
        | none => analysis_locked o symbol now st
    | none => analysis_locked o symbol now st

/-! ## Helper lemmas -/

/-- The position ids carried by the SELL trades of a history, in order. -/
def sellPositionIds (trade_history : List Trade) : List (Option String) :=
  (trade_history.filter (fun t => t.side = some "SELL")).map (fun t => t.position_id)

theorem foldl_firstPassStep_closed (trade_history : List Trade) (acc : FirstPass) :
    (trade_history.foldl firstPassStep acc).closed_positions =
      acc.closed_positions ∪ (sellPositionIds trade_history).toFinset := by
  induction trade_history generalizing acc with
  | nil => simp [sellPositionIds]
  | cons t ts ih =>
      rw [List.foldl_cons, ih]
      by_cases hb : t.side = some "BUY"
      · simp [sellPositionIds, firstPassStep, hb]
      · by_cases hs : t.side = some "SELL"
        · cases hpa : t.profit_amount <;>
            simp [sellPositionIds, firstPassStep, hb, hs, hpa, List.filter_cons,
              Finset.union_insert]
        · simp [sellPositionIds, firstPassStep, hb, hs, List.filter_cons]

theorem firstPass_closed (trade_history : List Trade) :
    (firstPass trade_history).closed_positions = (sellPositionIds trade_history).toFinset := by
  rw [firstPass, foldl_firstPassStep_closed]
  rfl

theorem if_div_of_nonneg (x ti : ℚ) (h : 0 ≤ ti) :
    (if 0 < ti then x / ti * 100 else 0) = x / ti * 100 := by
  rcases h.lt_or_eq with h1 | h1
  · simp [h1]
  · simp [← h1]

theorem unrealizedTotal_foldl (active_positions : List ActivePosition) (current_price a : ℚ) :
    active_positions.foldl
      (fun acc p =>
        let e := p.entry_price.getD 0
        let sz := p.size.getD 0
        if 0 < e ∧ 0 < sz then acc + calculate_profit_loss e current_price sz true else acc)
      a =
    a + (active_positions.map (fun p =>
      if 0 < p.entry_price.getD 0 ∧ 0 < p.size.getD 0 then
        calculate_profit_loss (p.entry_price.getD 0) current_price (p.size.getD 0) true
      else 0)).sum := by
  induction active_positions generalizing a with
  | nil => simp
  | cons p ps ih =>
      rw [List.foldl_cons, ih]
      by_cases h : 0 < p.entry_price.getD 0 ∧ 0 < p.size.getD 0 <;> simp [h] <;> ring

theorem unrealizedTotal_eq_sum (active_positions : List ActivePosition) (current_price : ℚ) :
    unrealizedTotal active_positions current_price =
      (active_positions.map (fun p =>
        if 0 < p.entry_price.getD 0 ∧ 0 < p.size.getD 0 then
          calculate_profit_loss (p.entry_price.getD 0) current_price (p.size.getD 0) true
        else 0)).sum := by
  rw [unrealizedTotal, unrealizedTotal_foldl, zero_add]

/-! ## Claims about the PnL calculator and the summary engines -/

/-- C1: on the fixed history of one BUY at price 100 size 1 and one SELL of
position p1 with size 1 and profit 20, with no active positions and current
price 150, the total profit summary reports realized profit 20, unrealized
profit 0, one closed position, no open position and a realized profit
percentage of 20. -/
theorem total_profit_summary_example :
    calculate_total_profit_summary
        [{ side := some "BUY", price := some 100, size := some 1 },
         { side := some "SELL", size := some 1, position_id := some "p1",
           profit_amount := some 20 }]
        [] 150 =
      Except.ok
        { realized_profit := 20
          unrealized_profit := 0
          total_profit := 20
          realized_profit_percentage := 20
          unrealized_profit_percentage := 0
          total_profit_percentage := 20
          total_buy_volume := 1
          total_sell_volume := 1
          open_positions_count := 0
          closed_positions_count := 1 } := by
  rw [calculate_total_profit_summary_ok]
  norm_num [profitSummaryValue, firstPass, firstPassStep, unrealizedTotal,
    open_positions_value, show ("SELL" : String) ≠ "BUY" from by decide]

/-- C3: the closed-positions count of the total profit summary is the number
of distinct position-id values among the SELL trades of the history, so that
several partial sells of one position count as a single closed position. -/
theorem closed_positions_count_dedup (trade_history : List Trade)
    (active_positions : List ActivePosition) (current_price : ℚ) :
    (calculate_total_profit_summary trade_history active_positions current_price).map
        (fun s => s.closed_positions_count) =
      Except.ok
        (((trade_history.filter (fun t => t.side = some "SELL")).map
          (fun t => t.position_id)).dedup.length) := by
  rw [calculate_total_profit_summary_ok]
  show Except.ok (profitSummaryValue trade_history active_positions
    current_price).closed_positions_count = _
  rw [profitSummaryValue]
  show Except.ok (firstPass trade_history).closed_positions.card = _
  rw [firstPass_closed, sellPositionIds, List.card_toFinset]

/-- C4: the realized and total profit percentages are the respective profits
divided by the total BUY investment times 100, zero when that investment is
zero, and the unrealized profit percentage is the unrealized profit divided
by the open-positions value times 100, zero when that value is zero. -/
theorem profit_percentage_formulas (trade_history : List Trade)
    (active_positions : List ActivePosition) (current_price : ℚ)
    (hti : 0 ≤ (firstPass trade_history).total_investment)
    (hopv : 0 ≤ open_positions_value active_positions) :
    (calculate_total_profit_summary trade_history active_positions current_price).map
        (fun s => s.realized_profit_percentage) =
      Except.ok ((firstPass trade_history).realized_profit /
        (firstPass trade_history).total_investment * 100) ∧
    (calculate_total_profit_summary trade_history active_positions current_price).map
        (fun s => s.total_profit_percentage) =
      Except.ok (((firstPass trade_history).realized_profit +
          unrealizedTotal active_positions current_price) /
        (firstPass trade_history).total_investment * 100) ∧
    (calculate_total_profit_summary trade_history active_positions current_price).map
        (fun s => s.unrealized_profit_percentage) =
      Except.ok (unrealizedTotal active_positions current_price /
        open_positions_value active_positions * 100) ∧
    ((firstPass trade_history).total_investment = 0 →
      (calculate_total_profit_summary trade_history active_positions current_price).map
          (fun s => s.realized_profit_percentage) = Except.ok 0 ∧
      (calculate_total_profit_summary trade_history active_positions current_price).map
          (fun s => s.total_profit_percentage) = Except.ok 0) ∧
    (open_positions_value active_positions = 0 →
      (calculate_total_profit_summary trade_history active_positions current_price).map
          (fun s => s.unrealized_profit_percentage) = Except.ok 0) := by
  rw [calculate_total_profit_summary_ok]
  refine ⟨?_, ?_, ?_, fun h0 => ⟨?_, ?_⟩, fun h0 => ?_⟩ <;>
    simp [profitSummaryValue, Except.map]
  all_goals first
    | exact fun h => Or.inr (le_antisymm h hti)
    | exact fun h => Or.inr (le_antisymm h hopv)
    | exact fun h => Or.inr h0

/-- C4 witness: with one active position of entry price 100 and size 2, a
current price of 120 and an empty trade history, the unrealized profit
percentage is 20, computed as 40 divided by the open value 200 times 100. -/
theorem profit_percentage_formulas_witness :
    (calculate_total_profit_summary [] [{ entry_price := some 100, size := some 2 }]
        120).map (fun s => s.unrealized_profit_percentage) = Except.ok 20 := by
  have h := (profit_percentage_formulas []
    [{ entry_price := some 100, size := some 2 }] 120 (by norm_num [firstPass])
    (by norm_num [open_positions_value])).2.2.1
  rw [h]
  norm_num [unrealizedTotal, open_positions_value, calculate_profit_loss]

/-- C5: calling the profit-loss percentage with a zero entry price raises a
ZeroDivisionError, which is not the InvalidInput error the specification
requires for a zero entry price. -/
theorem profit_loss_percentage_zero_entry_division_error :
    calculate_profit_loss_percentage 0 110 true = Except.error PyErr.zeroDivision ∧
      Except.error PyErr.zeroDivision ≠
        (Except.error PyErr.invalidInput : Except PyErr ℚ) := by
  refine ⟨rfl, fun h => ?_⟩
  simp at h

/-- C8: for positive entry price, current price and size, the long
profit-loss is the negation of the short profit-loss. -/
theorem profit_loss_long_short_antisymm (entry_price current_price size : ℚ)
    (he : 0 < entry_price) (hc : 0 < current_price) (hs : 0 < size) :
    calculate_profit_loss entry_price current_price size true =
      -calculate_profit_loss entry_price current_price size false := by
  simp [calculate_profit_loss]
  ring

/-- C8 witness at entry price 100, current price 110 and size 1. -/
theorem profit_loss_long_short_antisymm_witness :
    calculate_profit_loss 100 110 1 true = -calculate_profit_loss 100 110 1 false :=
  profit_loss_long_short_antisymm 100 110 1 (by norm_num) (by norm_num) (by norm_num)

/-- C10: an active position with non-positive defaulted entry price or size
contributes zero to the unrealized profit, while it is still counted in the
open-positions count and its entry price times size term is still part of
the open-positions value used as denominator of the unrealized
percentage. -/
theorem degenerate_position_contribution (trade_history : List Trade)
    (ap1 ap2 : List ActivePosition) (p : ActivePosition) (current_price : ℚ)
    (h : p.entry_price.getD 0 ≤ 0 ∨ p.size.getD 0 ≤ 0) :
    (calculate_total_profit_summary trade_history (ap1 ++ p :: ap2) current_price).map
        (fun s => s.unrealized_profit) =
      (calculate_total_profit_summary trade_history (ap1 ++ ap2) current_price).map
        (fun s => s.unrealized_profit) ∧
    (calculate_total_profit_summary trade_history (ap1 ++ p :: ap2) current_price).map
        (fun s => s.open_positions_count) =
      Except.ok ((ap1 ++ ap2).length + 1) ∧
    open_positions_value (ap1 ++ p :: ap2) =
      open_positions_value (ap1 ++ ap2) + p.entry_price.getD 0 * p.size.getD 0 := by
  have hp : ¬(0 < p.entry_price.getD 0 ∧ 0 < p.size.getD 0) := by
    rcases h with h | h
    · exact fun hc => absurd hc.1 (not_lt.mpr h)
    · exact fun hc => absurd hc.2 (not_lt.mpr h)
  refine ⟨?_, ?_, ?_⟩
  · rw [calculate_total_profit_summary_ok, calculate_total_profit_summary_ok]
    simp [profitSummaryValue, Except.map, unrealizedTotal_eq_sum, hp]
  · rw [calculate_total_profit_summary_ok]
    simp [profitSummaryValue, Except.map]
    omega
  · simp [open_positions_value]
    ring

/-- C10 witness: a zero-entry-price position alongside one healthy position
at current price 100. -/
theorem degenerate_position_contribution_witness :
    (calculate_total_profit_summary [] ([] ++ ({ entry_price := some 0, size := some 1 } :
          ActivePosition) :: [{ entry_price := some 50, size := some 1 }]) 100).map
        (fun s => s.unrealized_profit) =
      (calculate_total_profit_summary [] ([] ++ [{ entry_price := some 50, size := some 1 }])
          100).map (fun s => s.unrealized_profit) :=
  (degenerate_position_contribution [] [] [{ entry_price := some 50, size := some 1 }]
    { entry_price := some 0, size := some 1 } 100 (Or.inl (by norm_num))).1

/-! ## Lemmas about which records make the performance summary raise -/

theorem except_bind_ok {α β : Type} (a : α) (f : α → Except PyErr β) :
    (Except.ok a : Except PyErr α) >>= f = f a := rfl

theorem except_map_ok {α β : Type} (a : α) (f : α → β) :
    (Except.ok a : Except PyErr α).map f = Except.ok (f a) := rfl

theorem except_pure_bind {α β : Type} (a : α) (f : α → Except PyErr β) :
    (pure a : Except PyErr α) >>= f = f a := rfl

theorem is_successful_trade_eq_ok (t : Trade)
    (h : t.exit_price.isSome → t.entry_price.getD 0 ≠ 0) :
    ∃ b, is_successful_trade t = Except.ok b := by
  cases he : t.entry_price with
  | none => exact ⟨false, by simp [is_successful_trade, he]⟩
  | some e =>
      cases hx : t.exit_price with
      | none => exact ⟨false, by simp [is_successful_trade, he, hx]⟩
      | some x =>
          have he0 : e ≠ 0 := by
            have h2 := h (by simp [hx])
            simpa [he] using h2
          have hpct : ∃ q, calculate_profit_loss_percentage e x
              (decide (t.side.getD "BUY" = "BUY")) = Except.ok q := by
            by_cases hl : t.side.getD "BUY" = "BUY"
            · exact ⟨(x - e) / e * 100, by
                simp [calculate_profit_loss_percentage, hl, qdivE, he0, Except.map]⟩
            · exact ⟨(e - x) / e * 100, by
                simp [calculate_profit_loss_percentage, hl, qdivE, he0, Except.map]⟩
          obtain ⟨q, hq⟩ := hpct
          exact ⟨decide (0 < q), by simp [is_successful_trade, he, hx, hq, Except.map]⟩

theorem is_successful_trade_true_fields (t : Trade)
    (h : is_successful_trade t = Except.ok true) :
    t.entry_price.isSome ∧ t.exit_price.isSome := by
  cases he : t.entry_price <;> cases hx : t.exit_price <;>
    simp [is_successful_trade, he, hx] at h ⊢

theorem losing_pred_true (t : Trade)
    (h : (is_successful_trade t).map (fun b => !b && t.exit_price.isSome) =
      Except.ok true) : t.exit_price.isSome := by
  cases hs : is_successful_trade t with
  | error e => simp [hs, Except.map] at h
  | ok b =>
      rw [hs] at h
      simp [Except.map] at h
      exact h.2

theorem tradePL_eq_ok (t : Trade) (h1 : t.entry_price.isSome)
    (h2 : t.exit_price.isSome) (h3 : t.size.isSome) :
    ∃ q, tradePL t = Except.ok q := by
  obtain ⟨e, he⟩ := Option.isSome_iff_exists.mp h1
  obtain ⟨x, hx⟩ := Option.isSome_iff_exists.mp h2
  obtain ⟨sz, hsz⟩ := Option.isSome_iff_exists.mp h3
  exact ⟨calculate_profit_loss e x sz (decide (t.side.getD "BUY" = "BUY")), by
    simp [tradePL, he, hx, hsz, getItem, bind, Except.bind, pure, Except.pure]⟩

theorem filterE_eq_ok (p : Trade → Except PyErr Bool) (l : List Trade)
    (h : ∀ x ∈ l, ∃ b, p x = Except.ok b) :
    ∃ r, filterE p l = Except.ok r ∧ ∀ x ∈ r, x ∈ l ∧ p x = Except.ok true := by
  induction l with
  | nil => exact ⟨[], rfl, by simp⟩
  | cons t ts ih =>
      obtain ⟨b, hb⟩ := h t (by simp)
      obtain ⟨r, hr, hmem⟩ := ih (fun x hx => h x (by simp [hx]))
      cases b with
      | true =>
          refine ⟨t :: r, by simp [filterE, hb, hr, bind, Except.bind, pure, Except.pure], ?_⟩
          intro x hx
          rcases List.mem_cons.mp hx with hx | hx
          · subst hx; exact ⟨by simp, hb⟩
          · exact ⟨by simp [(hmem x hx).1], (hmem x hx).2⟩
      | false =>
          refine ⟨r, by simp [filterE, hb, hr, bind, Except.bind, pure, Except.pure], ?_⟩
          intro x hx
          exact ⟨by simp [(hmem x hx).1], (hmem x hx).2⟩

theorem sumPL_eq_ok (l : List Trade) (h : ∀ t ∈ l, ∃ q, tradePL t = Except.ok q) :
    ∃ q, sumPL l = Except.ok q := by
  induction l with
  | nil => exact ⟨0, rfl⟩
  | cons t ts ih =>
      obtain ⟨q, hq⟩ := h t (by simp)
      obtain ⟨qs, hqs⟩ := ih (fun x hx => h x (by simp [hx]))
      exact ⟨q + qs, by simp [sumPL, hq, hqs, bind, Except.bind, pure, Except.pure]⟩

theorem plList_eq_ok (l : List Trade) (h : ∀ t ∈ l, ∃ q, tradePL t = Except.ok q) :
    ∃ qs, plList l = Except.ok qs := by
  induction l with
  | nil => exact ⟨[], rfl⟩
  | cons t ts ih =>
      obtain ⟨q, hq⟩ := h t (by simp)
      obtain ⟨qs, hqs⟩ := ih (fun x hx => h x (by simp [hx]))
      exact ⟨q :: qs, by simp [plList, hq, hqs, bind, Except.bind, pure, Except.pure]⟩

/-- C2 counterexample: a single record that has an exit price but no entry
price makes get_performance_summary raise a KeyError, contradicting the
claim that the summary functions never raise on records with missing
fields. -/
theorem performance_summary_missing_entry_raises :
    get_performance_summary [{ exit_price := some 100 }] =
      Except.error PyErr.keyError := by
  rfl

/-- C2 amended: calculate_total_profit_summary never raises on any input
and a record with no side field contributes nothing while the remaining
records are still aggregated; get_performance_summary does not raise
provided every record carrying an exit price also carries an entry price, a
size, and a nonzero entry price. -/
theorem summary_malformed_records_policy :
    (∀ (trade_history : List Trade) (active_positions : List ActivePosition)
        (current_price : ℚ), ∃ s,
        calculate_total_profit_summary trade_history active_positions current_price =
          Except.ok s) ∧
    (∀ trades : List Trade,
        (∀ t ∈ trades, t.exit_price.isSome →
          t.entry_price.isSome ∧ t.size.isSome ∧ t.entry_price.getD 0 ≠ 0) →
        ∃ s, get_performance_summary trades = Except.ok s) ∧
    (∀ (th1 th2 : List Trade) (t : Trade) (active_positions : List ActivePosition)
        (current_price : ℚ), t.side = none →
        calculate_total_profit_summary (th1 ++ t :: th2) active_positions current_price =
          calculate_total_profit_summary (th1 ++ th2) active_positions current_price) := by
  refine ⟨?_, ?_, ?_⟩
  · intro trade_history active_positions current_price
    exact ⟨_, calculate_total_profit_summary_ok trade_history active_positions
      current_price⟩
  · intro trades h
    by_cases hemp : trades.isEmpty
    · exact ⟨⟨0, 0, 0, 0, 0, 0, 0⟩, by simp [get_performance_summary, hemp]⟩
    · have hw : ∀ x ∈ trades, ∃ b, is_successful_trade x = Except.ok b :=
        fun x hx => is_successful_trade_eq_ok x (fun hex => (h x hx hex).2.2)
      obtain ⟨r1, hr1, hr1m⟩ := filterE_eq_ok is_successful_trade trades hw
      have hlp : ∀ x ∈ trades, ∃ b,
          (is_successful_trade x).map (fun b => !b && x.exit_price.isSome) =
            Except.ok b := by
        intro x hx
        obtain ⟨b, hb⟩ := hw x hx
        exact ⟨!b && x.exit_price.isSome, by simp [hb, Except.map]⟩
      obtain ⟨r2, hr2, hr2m⟩ := filterE_eq_ok _ trades hlp
      have h1pl : ∀ t ∈ r1, ∃ q, tradePL t = Except.ok q := by
        intro t ht
        obtain ⟨htl, htrue⟩ := hr1m t ht
        obtain ⟨hent, hex⟩ := is_successful_trade_true_fields t htrue
        exact tradePL_eq_ok t hent hex (h t htl hex).2.1
      have h2pl : ∀ t ∈ r2, ∃ q, tradePL t = Except.ok q := by
        intro t ht
        obtain ⟨htl, htrue⟩ := hr2m t ht
        have hex := losing_pred_true t htrue
        exact tradePL_eq_ok t (h t htl hex).1 hex (h t htl hex).2.1
      have htot : ∃ q, sumPL (trades.filter (fun t => t.exit_price.isSome)) =
          Except.ok q := by
        refine sumPL_eq_ok _ (fun t ht => ?_)
        rw [List.mem_filter] at ht
        exact tradePL_eq_ok t (h t ht.1 ht.2).1 ht.2 (h t ht.1 ht.2).2.1
      obtain ⟨qt, hqt⟩ := htot
      obtain ⟨l1, hl1⟩ := plList_eq_ok r1 h1pl
      obtain ⟨l2, hl2⟩ := plList_eq_ok r2 h2pl
      obtain ⟨q1, hq1⟩ := sumPL_eq_ok r1 h1pl
      obtain ⟨q2, hq2⟩ := sumPL_eq_ok r2 h2pl
      by_cases he1 : r1.isEmpty = true <;> by_cases he2 : r2.isEmpty = true
      · refine ⟨{ total_trades := trades.length,
                  win_rate := (r1.length : ℚ) / (trades.length : ℚ) * 100,
                  profit_loss := qt, avg_profit_per_trade := 0,
                  avg_loss_per_trade := 0, max_profit := pymax l1 0,
                  max_loss := pymin l2 0 }, ?_⟩
        rw [get_performance_summary, if_neg hemp]
        simp only [hr1, except_bind_ok, hr2, hqt, hl1, hl2, except_map_ok]
        rw [if_pos he1, except_pure_bind]
        rw [if_pos he2, except_pure_bind]
        rfl
      · refine ⟨{ total_trades := trades.length,
                  win_rate := (r1.length : ℚ) / (trades.length : ℚ) * 100,
                  profit_loss := qt, avg_profit_per_trade := 0,
                  avg_loss_per_trade := q2 / (r2.length : ℚ),
                  max_profit := pymax l1 0, max_loss := pymin l2 0 }, ?_⟩
        rw [get_performance_summary, if_neg hemp]
        simp only [hr1, except_bind_ok, hr2, hqt, hl1, hl2, except_map_ok]
        rw [if_pos he1, except_pure_bind]
        rw [if_neg he2, hq2, except_map_ok, except_bind_ok]
        rfl
      · refine ⟨{ total_trades := trades.length,
                  win_rate := (r1.length : ℚ) / (trades.length : ℚ) * 100,
                  profit_loss := qt, avg_profit_per_trade := q1 / (r1.length : ℚ),
                  avg_loss_per_trade := 0, max_profit := pymax l1 0,
                  max_loss := pymin l2 0 }, ?_⟩
        rw [get_performance_summary, if_neg hemp]
        simp only [hr1, except_bind_ok, hr2, hqt, hl1, hl2, except_map_ok]
        rw [if_neg he1, hq1, except_map_ok, except_bind_ok]
        rw [if_pos he2, except_pure_bind]
        rfl
      · refine ⟨{ total_trades := trades.length,
                  win_rate := (r1.length : ℚ) / (trades.length : ℚ) * 100,
                  profit_loss := qt, avg_profit_per_trade := q1 / (r1.length : ℚ),
                  avg_loss_per_trade := q2 / (r2.length : ℚ),
                  max_profit := pymax l1 0, max_loss := pymin l2 0 }, ?_⟩
        rw [get_performance_summary, if_neg hemp]
        simp only [hr1, except_bind_ok, hr2, hqt, hl1, hl2, except_map_ok]
        rw [if_neg he1, hq1, except_map_ok, except_bind_ok]
        rw [if_neg he2, hq2, except_map_ok, except_bind_ok]
        rfl
  · intro th1 th2 t active_positions current_price hside
    have hfp : firstPass (th1 ++ t :: th2) = firstPass (th1 ++ th2) := by
      simp [firstPass, List.foldl_append, List.foldl_cons, firstPassStep, hside]
    rw [calculate_total_profit_summary_ok, calculate_total_profit_summary_ok]
    simp only [profitSummaryValue]
    rw [hfp]

/-- C2 amended witness: a well-formed closed trade is summarized without an
exception, and the total summary of a BUY-only history succeeds. -/
theorem summary_malformed_records_policy_witness :
    (∃ s, calculate_total_profit_summary [{ side := some "BUY", price := some 100 }] []
        50 = Except.ok s) ∧
    (∃ s, get_performance_summary
        [{ entry_price := some 100, exit_price := some 110, size := some 1 }] =
      Except.ok s) :=
  ⟨summary_malformed_records_policy.1 _ _ _,
   summary_malformed_records_policy.2.1 _ (by
    intro t ht
    simp only [List.mem_singleton] at ht
    subst ht
    intro _
    refine ⟨rfl, rfl, ?_⟩
    norm_num)⟩

/-! ## Claims about the position update endpoint and the analysis coalescer -/

theorem inProgressFlag_setInProgress (m : List (String × Bool)) (symbol : String) (b : Bool) :
    inProgressFlag (setInProgress m symbol b) symbol = b := by
  induction m with
  | nil => simp [setInProgress, inProgressFlag]
  | cons kv rest ih =>
      obtain ⟨k, old⟩ := kv
      by_cases h : k = symbol <;> simp [setInProgress, inProgressFlag, h, ih]

/-- C6: a position update for an id absent from the store leaves the store
unchanged, but the handler does not surface the 404 NotFound error: the 404
HTTPException raised inside the try block is caught by the bare except
clause and re-raised as a 500 error wrapping the original message. -/
theorem update_position_unknown_id_returns_500 (store : PositionStore)
    (position_id : String) (update : PositionUpdate)
    (h : storeLookup store position_id = none) :
    update_position true store position_id update =
      (Except.error { status := 500, detail := "Error updating position: " ++ toString (404 : ℕ) ++ ": " ++ ("Position " ++ position_id ++ " not found") }, store) := by
  simp [update_position, update_position_try, load_active_positions, h]

/-- C6 witness: the empty store does not contain the id p1. -/
theorem update_position_unknown_id_returns_500_witness :
    update_position true [] "p1" {} =
      (Except.error { status := 500, detail := "Error updating position: " ++ toString (404 : ℕ) ++ ": " ++ ("Position " ++ "p1" ++ " not found") }, []) :=
  update_position_unknown_id_returns_500 [] "p1" {} rfl

/-- C9: when the supplied stop loss, size and take profit are all 0 or
omitted, the truthiness guards skip every update: the request succeeds and
the stored position set is byte-for-byte unchanged. -/
theorem update_position_falsy_values_noop (store : PositionStore) (position_id : String)
    (update : PositionUpdate) (pos : ActivePosition)
    (h : storeLookup store position_id = some pos)
    (h1 : truthy update.stop_loss = false) (h2 : truthy update.size = false)
    (h3 : truthy update.take_profit = false) :
    update_position true store position_id update =
      (Except.ok "Position updated successfully", store) := by
  simp [update_position, update_position_try, load_active_positions, h, h1, h2, h3]

/-- C9 witness: a request carrying stop loss 0, size 0 and no take profit
against a store holding the position p1. -/
theorem update_position_falsy_values_noop_witness :
    update_position true [("p1", {})] "p1" { stop_loss := some 0, size := some 0 } =
      (Except.ok "Position updated successfully", [("p1", {})]) :=
  update_position_falsy_values_noop [("p1", {})] "p1"
    { stop_loss := some 0, size := some 0 } {} rfl (by decide) (by decide) rfl

/-- C7: any call of get_ai_analysis that finds the per-symbol in-progress
flag clear leaves it clear when it returns, whichever exit path the call
takes: guard rejection, cache hit, success, timeout or error of any of the
external calls. -/
theorem ai_analysis_clears_in_progress (o : AnalysisOracle) (trader_ok : Bool) (now : ℚ)
    (symbol : String) (st : CoalescerState)
    (h : inProgressFlag st.analysis_in_progress symbol = false) :
    inProgressFlag (get_ai_analysis o trader_ok now symbol st).2.analysis_in_progress
      symbol = false := by
  unfold get_ai_analysis
  repeat' split
  all_goals simp_all [analysis_locked, inProgressFlag_setInProgress]

/-- An oracle on which every external call of the analysis succeeds. -/
def sampleOracle : AnalysisOracle :=
  { temp_trader_raises := false, fetch := CallOutcome.ok { empty := false },
    mock_fetch := none, indicators := some { empty := false },
    analyze := CallOutcome.ok 0 }

/-- An empty coalescer state. -/
def emptyCoalescer : CoalescerState :=
  { analysis_cache := [], analysis_in_progress := [] }

/-- C7 witness: a successful analysis of BTC from the empty coalescer state
ends with the in-progress flag clear. -/
theorem ai_analysis_clears_in_progress_witness :
    inProgressFlag (get_ai_analysis sampleOracle true 0 "BTC" emptyCoalescer).2.analysis_in_progress "BTC" = false :=
  ai_analysis_clears_in_progress sampleOracle true 0 "BTC" emptyCoalescer rfl

end BTCTrader
